import Mathlib

/-!
Verification of the NCRPMOD configuration store (`src/config.py`).

The module persists one JSON document in a primary file `bot_config.json`,
keeps a best-effort backup `bot_config.backup.json`, and a process-wide
cache.  We give a shallow embedding: file contents are modelled up to byte
identity by the `Content` type, the filesystem and cache by `World`, and
fault injection for the save path by the `Faults` record.  Each Python
function is translated clause by clause.
-/

set_option autoImplicit false

namespace NCRP

/-- JSON values, as produced by Python's `json.load`.  Objects keep their
key order (Python dicts are insertion-ordered and `json` preserves order). -/
inductive Json where
  | null : Json
  | bool : Bool → Json
  | num : Int → Json
  | str : String → Json
  | arr : List Json → Json
  | obj : List (String × Json) → Json

/-- Python dict assignment `d[k] = v`: replace the first binding of `k`
in place, else append a new binding at the end (insertion order). -/
def setEntry : List (String × Json) → String → Json → List (String × Json)
  | [], k, v => [(k, v)]
  | (k', v') :: rest, k, v =>
      if k' = k then (k, v) :: rest else (k', v') :: setEntry rest k v

/-- Python dict lookup `d.get(k)` / `d[k]` (first binding wins). -/
def lookupEntry : List (String × Json) → String → Option Json
  | [], _ => none
  | (k', v') :: rest, k => if k' = k then some v' else lookupEntry rest k

/-- Python `k in d`. -/
def hasKey (es : List (String × Json)) (k : String) : Bool :=
  (lookupEntry es k).isSome

/-- Bytes of a file, up to identity.  `ser d` is the canonical output of
`json.dump(d, f, indent=4)`; `ext d n` is any other byte string that
`json.load` parses to `d` (e.g. written by an external process with
different formatting); `garbage n` is a byte string `json.load` rejects
(malformed, truncated or empty). -/
inductive Content where
  | ser : Json → Content
  | ext : Json → Nat → Content
  | garbage : Nat → Content

/-- Model of `json.load` on the bytes: succeeds exactly on valid JSON. -/
def Content.parse : Content → Option Json
  | .ser d => some d
  | .ext d _ => some d
  | .garbage _ => none

/-- Exceptions that can cross the boundaries we model. -/
inductive PyErr where
  | osError : PyErr
  | typeError : PyErr

/-- State of one file path: absent, present but unopenable
(`open` raises `OSError`: permissions, path is a directory, ...),
or present with readable bytes. -/
inductive FileState where
  | absent : FileState
  | unreadable : Nat → FileState
  | file : Content → FileState

/-- Model of `os.path.exists`. -/
def FileState.existsOnDisk : FileState → Bool
  | .absent => false
  | _ => true

/-- Model of `open(path, 'r')` followed by reading the bytes. -/
def FileState.read : FileState → Except PyErr Content
  | .file c => .ok c
  | _ => .error .osError

/-- The directory holding the three paths the module touches.
`temp` is the `config_tmp_*` file of the save in flight, if one is on disk. -/
structure FS where
  primary : FileState
  backup : FileState
  temp : Option Content

/-- Filesystem plus the process-wide `_config_cache`. -/
structure World where
  fs : FS
  cache : Option Json

/-- Fault injection points for `save_config`, in program order:
reading/parsing the primary in the backup step; writing the backup file
(`backupWriteFail`), where `backupTruncates` selects how that write fails —
`false`: `open(CONFIG_BACKUP_FILE, 'w')` itself raises, leaving the backup
untouched; `true`: the `open` succeeded (truncating the backup) and the
failure strikes during `json.dump`, leaving truncated partial bytes —
then `tempfile.mkstemp`, `json.dump` to the temp file, `os.fsync`,
`os.replace`. -/
structure Faults where
  backupReadFail : Bool
  backupWriteFail : Bool
  backupTruncates : Bool
  mkstempFail : Bool
  writeFail : Bool
  fsyncFail : Bool
  renameFail : Bool

/-- Fault-free run. -/
def noFaults : Faults := ⟨false, false, false, false, false, false, false⟩

/-- Entry list of `DEFAULT_CONFIG` (`src/config.py`, lines 10-28). -/
def DEFAULT_ENTRIES : List (String × Json) := [
  ("log_channel_id", .null),
  ("guild_log_channels", .obj []),
  ("announcement_channels", .obj []),
  ("ticket_category_id", .null),
  ("ticket_counter", .num 0),
  ("muted_roles", .obj []),
  ("min_account_age_days", .num 7),
  ("warnings", .obj []),
  ("temp_bans", .obj []),
  ("temp_mutes", .obj []),
  ("giveaways", .obj []),
  ("completed_giveaways", .obj []),
  ("role_prefixes", .obj []),
  ("webhook_url", .null),
  ("guild_languages", .obj []),
  ("guild_prefixes", .obj []),
  ("last_saved", .null)
]

/-- The `DEFAULT_CONFIG` document of `src/config.py`, lines 10-28. -/
def DEFAULT_CONFIG : Json := .obj DEFAULT_ENTRIES

/-- Outcome of `load_config`: resulting state, returned value (`none` when
an exception escapes), and the escaped exception if any. -/
structure LoadResult where
  world : World
  ret : Option Json
  raised : Option PyErr

/-- Translation of `load_config` (`src/config.py` lines 34-56).  The `except` clause on
the primary read catches only `json.JSONDecodeError` and `EOFError`, so an
`OSError` from `open` propagates; the backup read sits under a bare
`except:` that swallows everything. -/
def load_config (w : World) : LoadResult :=
  if (FileState.existsOnDisk w.fs.primary) then
    match FileState.read w.fs.primary with
    | .error e => ⟨w, none, some e⟩
    | .ok c =>
      match Content.parse c with
      | some d => ⟨⟨w.fs, some d⟩, some d, none⟩
      | none =>
        if (FileState.existsOnDisk w.fs.backup) then
          match FileState.read w.fs.backup with
          | .error _ => ⟨w, some DEFAULT_CONFIG, none⟩
          | .ok c2 =>
            match Content.parse c2 with
            | some d2 => ⟨⟨w.fs, some d2⟩, some d2, none⟩
            | none => ⟨w, some DEFAULT_CONFIG, none⟩
        else ⟨w, some DEFAULT_CONFIG, none⟩
  else ⟨w, some DEFAULT_CONFIG, none⟩

/-- Outcome of `save_config`: resulting state, the caller's document object
after the call (the function mutates it in place), and the escaped
exception if any (the outer `except Exception` makes this always `none`). -/
structure SaveResult where
  world : World
  doc : Json
  raised : Option PyErr

/-- Line 64, `config_data['last_saved'] = datetime.now().isoformat()`:
item assignment on a non-mapping raises `TypeError`. -/
def stampLastSaved (doc : Json) (now : String) : Except PyErr Json :=
  match doc with
  | .obj es => .ok (.obj (setEntry es "last_saved" (.str now)))
  | _ => .error .typeError

/-- Lines 66-74 of `save_config`: best-effort backup.  If the primary
exists, `json.load` it and `json.dump` the parsed value (indent 4) to the
backup path; the bare `except: pass` swallows read, parse and write
failures.  A failed read or parse, or a failed `open` of the backup for
writing, leaves the filesystem as it was; but a failure during the
`json.dump` itself happens after `open(..., 'w')` already truncated the
backup, so it leaves truncated partial bytes behind (unparsable: the
document is a mapping, so every strict prefix of its indent-4 dump has
unbalanced braces). -/
def backupStep (fl : Faults) (fs : FS) : FS :=
  if (FileState.existsOnDisk fs.primary) then
    if fl.backupReadFail then fs
    else
      match FileState.read fs.primary with
      | .error _ => fs
      | .ok c =>
        match Content.parse c with
        | none => fs
        | some d =>
          if fl.backupWriteFail then
            if fl.backupTruncates then ⟨fs.primary, .file (.garbage 0), fs.temp⟩
            else fs
          else ⟨fs.primary, .file (.ser d), fs.temp⟩
  else fs

/-- Translation of `save_config` (`src/config.py` lines 58-92).  The whole body sits under
`except Exception`, so nothing propagates to the caller.  After stamping
`last_saved` and the best-effort backup, a temp file is created, written,
fsynced, and atomically renamed over the primary; on any failure after
`mkstemp` the temp file is removed and the re-raised exception is caught
by the outer handler; on success the cache is set to the saved document. -/
def save_config (doc : Json) (now : String) (fl : Faults) (w : World) : SaveResult :=
  match stampLastSaved doc now with
  | .error _ => ⟨w, doc, none⟩
  | .ok stamped =>
    let fs1 := backupStep fl w.fs
    if fl.mkstempFail then
      ⟨⟨fs1, w.cache⟩, stamped, none⟩
    else if fl.writeFail || fl.fsyncFail || fl.renameFail then
      ⟨⟨⟨fs1.primary, fs1.backup, none⟩, w.cache⟩, stamped, none⟩
    else
      ⟨⟨⟨.file (.ser stamped), fs1.backup, none⟩, some stamped⟩, stamped, none⟩

/-- Translation of `get_config` (line 94). -/
def get_config (w : World) : LoadResult := load_config w

/-- Translation of `update_config` (lines 97-101): read-modify-write one key.  Raises
`TypeError` (uncaught) when the loaded document is not a mapping. -/
def update_config (key : String) (value : Json) (now : String) (fl : Faults)
    (w : World) : Except PyErr (Json × World) :=
  match load_config w with
  | ⟨_, _, some e⟩ => .error e
  | ⟨w1, some (.obj es), none⟩ =>
    let es2 := setEntry es key value
    let s := save_config (.obj es2) now fl w1
    .ok (s.doc, s.world)
  | ⟨_, _, none⟩ => .error .typeError

/-- Translation of `get_guild_prefix` (lines 103-107): load, `config.get('guild_prefixes', {})`,
then `.get(str(guild_id), '!')`.  An attribute error from calling `.get` on a
non-mapping is modelled as `typeError` and propagates (no handler here). -/
def getGuildPfx (g : Int) (w : World) : Except PyErr (Json × World) :=
  match load_config w with
  | ⟨_, _, some e⟩ => .error e
  | ⟨w1, some (.obj es), none⟩ =>
    match lookupEntry es "guild_prefixes" with
    | none => .ok (.str "!", w1)
    | some (.obj gp) => .ok ((lookupEntry gp (toString g)).getD (.str "!"), w1)
    | some _ => .error .typeError
  | ⟨_, _, none⟩ => .error .typeError

/-- Translation of `set_guild_prefix` (lines 109-116): load, ensure the `guild_prefixes`
sub-mapping exists, set the entry under `str(guild_id)`, save, return the
new value.  Item assignment on a non-mapping raises `TypeError` (uncaught). -/
def setGuildPfx (g : Int) (p : String) (now : String) (fl : Faults)
    (w : World) : Except PyErr (String × World) :=
  match load_config w with
  | ⟨_, _, some e⟩ => .error e
  | ⟨w1, some (.obj es), none⟩ =>
    let es1 := if hasKey es "guild_prefixes" then es
               else setEntry es "guild_prefixes" (.obj [])
    match lookupEntry es1 "guild_prefixes" with
    | some (.obj gp) =>
      let es2 := setEntry es1 "guild_prefixes" (.obj (setEntry gp (toString g) (.str p)))
      .ok (p, (save_config (.obj es2) now fl w1).world)
    | _ => .error .typeError
  | ⟨_, _, none⟩ => .error .typeError

/-- Translation of `refresh_config_cache` (lines 117-122): clear the cache, reload. -/
def refresh_config_cache (w : World) : LoadResult :=
  load_config ⟨w.fs, none⟩

/-- Translation of `get_cached_config` (lines 124-129). -/
def get_cached_config (w : World) : LoadResult :=
  match w.cache with
  | none => load_config w
  | some c => ⟨w, some c, none⟩

/-- Copy of `fl` with the two backup-step fault flags cleared, step-3 flags kept. -/
def clearBackupFaults (fl : Faults) : Faults :=
  ⟨false, false, false, fl.mkstempFail, fl.writeFail, fl.fsyncFail, fl.renameFail⟩

/-- World with an unopenable primary file, for the `load_config` analysis. -/
def wUnreadable : World := ⟨⟨.unreadable 0, .absent, none⟩, none⟩

/-- World whose primary holds valid JSON in non-canonical formatting. -/
def wExtPrimary : World := ⟨⟨.file (.ext (.obj []) 0), .absent, none⟩, none⟩

/-- World with a canonically serialized empty object as primary, no backup. -/
def wSerPrimary : World := ⟨⟨.file (.ser (.obj [])), .absent, none⟩, none⟩

/-- World with no files at all and an empty cache. -/
def wEmpty : World := ⟨⟨.absent, .absent, none⟩, none⟩

/-- World with a corrupt primary and a valid backup. -/
def wCorruptWithBackup : World :=
  ⟨⟨.file (.garbage 0), .file (.ser (.obj [])), none⟩, none⟩

/-- World with a corrupt primary and no backup. -/
def wCorruptNoBackup : World := ⟨⟨.file (.garbage 0), .absent, none⟩, none⟩

/-- Fault vector failing only the atomic rename. -/
def renameFault : Faults := ⟨false, false, false, false, false, false, true⟩

/-- Fault vector failing only the temp-file write. -/
def writeFault : Faults := ⟨false, false, false, false, true, false, false⟩

theorem lookup_setEntry_self (l : List (String × Json)) (k : String) (v : Json) :
    lookupEntry (setEntry l k v) k = some v := by
  induction l with
  | nil => simp [setEntry, lookupEntry]
  | cons hd tl ih =>
    obtain ⟨k', v'⟩ := hd
    by_cases h : k' = k <;> simp [setEntry, lookupEntry, h, ih]

theorem lookup_setEntry_ne (l : List (String × Json)) (k k2 : String) (v : Json)
    (h : k2 ≠ k) : lookupEntry (setEntry l k v) k2 = lookupEntry l k2 := by
  have h' : ¬(k = k2) := fun e => h e.symm
  induction l with
  | nil => simp [setEntry, lookupEntry, h']
  | cons hd tl ih =>
    obtain ⟨k', v'⟩ := hd
    by_cases hk : k' = k
    · subst hk
      simp [setEntry, lookupEntry, h']
    · by_cases hk2 : k' = k2 <;> simp [setEntry, lookupEntry, h, h', hk, hk2, ih]

theorem backupStep_primary (fl : Faults) (fs : FS) :
    (backupStep fl fs).primary = fs.primary := by
  obtain ⟨p, b, t⟩ := fs
  cases p with
  | absent => rfl
  | unreadable n => cases hr : fl.backupReadFail <;> simp [backupStep, FileState.existsOnDisk, FileState.read, hr]
  | file c =>
    cases hr : fl.backupReadFail <;> cases hw : fl.backupWriteFail <;>
      cases ht : fl.backupTruncates <;> cases c <;>
        simp [backupStep, FileState.existsOnDisk, FileState.read, Content.parse,
              hr, hw, ht]

theorem backupStep_temp (fl : Faults) (fs : FS) :
    (backupStep fl fs).temp = fs.temp := by
  obtain ⟨p, b, t⟩ := fs
  cases p with
  | absent => rfl
  | unreadable n => cases hr : fl.backupReadFail <;> simp [backupStep, FileState.existsOnDisk, FileState.read, hr]
  | file c =>
    cases hr : fl.backupReadFail <;> cases hw : fl.backupWriteFail <;>
      cases ht : fl.backupTruncates <;> cases c <;>
        simp [backupStep, FileState.existsOnDisk, FileState.read, Content.parse,
              hr, hw, ht]

theorem backupStep_writes (fl : Faults) (fs : FS) (c : Content) (d : Json)
    (hp : fs.primary = .file c) (hparse : Content.parse c = some d)
    (hr : fl.backupReadFail = false) (hw : fl.backupWriteFail = false) :
    (backupStep fl fs).backup = .file (.ser d) := by
  simp [backupStep, hp, hparse, hr, hw, FileState.existsOnDisk, FileState.read]

theorem save_primary_unchanged_of_fault (doc : Json) (now : String) (fl : Faults)
    (w : World)
    (hf : fl.writeFail = true ∨ fl.fsyncFail = true ∨ fl.renameFail = true) :
    (save_config doc now fl w).world.fs.primary = w.fs.primary := by
  cases doc <;>
    cases hm : fl.mkstempFail <;>
      rcases hf with hf | hf | hf <;>
        simp [save_config, stampLastSaved, hm, hf, backupStep_primary]

theorem save_temp_none (doc : Json) (now : String) (fl : Faults) (w : World)
    (htemp : w.fs.temp = none) :
    (save_config doc now fl w).world.fs.temp = none := by
  cases doc <;>
    cases hm : fl.mkstempFail <;>
      cases hw : fl.writeFail <;> cases hy : fl.fsyncFail <;> cases hr : fl.renameFail <;>
        simp [save_config, stampLastSaved, hm, hw, hy, hr, backupStep_temp, htemp]

theorem save_raised_none (doc : Json) (now : String) (fl : Faults) (w : World) :
    (save_config doc now fl w).raised = none := by
  cases doc <;>
    cases hm : fl.mkstempFail <;>
      cases hw : fl.writeFail <;> cases hy : fl.fsyncFail <;> cases hr : fl.renameFail <;>
        simp [save_config, stampLastSaved, hm, hw, hy, hr]

theorem save_doc_stamped (es : List (String × Json)) (now : String) (fl : Faults)
    (w : World) :
    (save_config (.obj es) now fl w).doc = .obj (setEntry es "last_saved" (.str now)) := by
  cases hm : fl.mkstempFail <;>
    cases hw : fl.writeFail <;> cases hy : fl.fsyncFail <;> cases hr : fl.renameFail <;>
      simp [save_config, stampLastSaved, hm, hw, hy, hr]

theorem save_backup_eq_backupStep (es : List (String × Json)) (now : String)
    (fl : Faults) (w : World) :
    (save_config (.obj es) now fl w).world.fs.backup = (backupStep fl w.fs).backup := by
  cases hm : fl.mkstempFail <;>
    cases hw : fl.writeFail <;> cases hy : fl.fsyncFail <;> cases hr : fl.renameFail <;>
      simp [save_config, stampLastSaved, hm, hw, hy, hr]

/-- C1: for every document and every failure injected during the
temp-write/fsync/rename step of `save_config` (write, fsync or rename
error after temp-file creation but before the rename), the temporary file
does not survive the call, no exception reaches the caller, and the
primary file's content is byte-identical to what it was before. -/
theorem save_fault_is_atomic (doc : Json) (now : String) (fl : Faults) (w : World)
    (htemp : w.fs.temp = none)
    (hf : fl.writeFail = true ∨ fl.fsyncFail = true ∨ fl.renameFail = true) :
    (save_config doc now fl w).world.fs.primary = w.fs.primary ∧
    (save_config doc now fl w).world.fs.temp = none ∧
    (save_config doc now fl w).raised = none :=
  ⟨save_primary_unchanged_of_fault doc now fl w hf,
   save_temp_none doc now fl w htemp,
   save_raised_none doc now fl w⟩

/-- C1 witness: a write fault on a world with an existing primary. -/
theorem save_fault_is_atomic_witness :
    (save_config (.obj []) "t" writeFault wSerPrimary).world.fs.primary
        = wSerPrimary.fs.primary ∧
    (save_config (.obj []) "t" writeFault wSerPrimary).world.fs.temp = none ∧
    (save_config (.obj []) "t" writeFault wSerPrimary).raised = none :=
  save_fault_is_atomic (.obj []) "t" writeFault wSerPrimary rfl (.inl rfl)

/-- C2: saving a document `D` (a JSON mapping, per the data model) and then
loading returns exactly `D` with its `last_saved` field overwritten by the
timestamp written during the save. -/
theorem save_then_load_roundtrip (es : List (String × Json)) (now : String)
    (w : World) :
    (load_config (save_config (.obj es) now noFaults w).world).ret
        = some (.obj (setEntry es "last_saved" (.str now))) ∧
    (load_config (save_config (.obj es) now noFaults w).world).raised = none := by
  simp [save_config, stampLastSaved, noFaults, load_config,
        FileState.existsOnDisk, FileState.read, Content.parse]

/-- C4: with a corrupt (unparsable) primary and a backup whose bytes parse
to `d`, `load_config` returns `d`, sets the process-wide cache to `d`,
raises nothing, and leaves the filesystem (in particular the primary file)
untouched. -/
theorem load_recovers_from_backup (w : World) (g : Nat) (c : Content) (d : Json)
    (hp : w.fs.primary = .file (.garbage g)) (hb : w.fs.backup = .file c)
    (hparse : Content.parse c = some d) :
    (load_config w).ret = some d ∧
    (load_config w).world.cache = some d ∧
    (load_config w).world.fs = w.fs ∧
    (load_config w).raised = none := by
  cases c with
  | garbage g2 => simp [Content.parse] at hparse
  | ser e =>
    simp only [Content.parse, Option.some.injEq] at hparse
    subst hparse
    simp [load_config, hp, hb, FileState.existsOnDisk, FileState.read,
          Content.parse]
  | ext e n =>
    simp only [Content.parse, Option.some.injEq] at hparse
    subst hparse
    simp [load_config, hp, hb, FileState.existsOnDisk, FileState.read,
          Content.parse]

/-- C4 witness: garbage primary, serialized empty object as backup. -/
theorem load_recovers_from_backup_witness :
    (load_config wCorruptWithBackup).ret = some (.obj []) ∧
    (load_config wCorruptWithBackup).world.cache = some (.obj []) ∧
    (load_config wCorruptWithBackup).world.fs = wCorruptWithBackup.fs ∧
    (load_config wCorruptWithBackup).raised = none :=
  load_recovers_from_backup wCorruptWithBackup 0 (.ser (.obj [])) (.obj [])
    rfl rfl rfl

/-- C5: with a corrupt (unparsable) primary and a backup that is absent or
also unparsable, `load_config` returns the default document and raises
nothing. -/
theorem load_falls_back_to_default (w : World) (g : Nat)
    (hp : w.fs.primary = .file (.garbage g))
    (hb : w.fs.backup = .absent ∨ ∃ g2, w.fs.backup = .file (.garbage g2)) :
    (load_config w).ret = some DEFAULT_CONFIG ∧ (load_config w).raised = none := by
  rcases hb with hb | ⟨g2, hb⟩ <;>
    simp [load_config, hp, hb, FileState.existsOnDisk, FileState.read,
          Content.parse]

/-- C5 witness: garbage primary, no backup. -/
theorem load_falls_back_to_default_witness :
    (load_config wCorruptNoBackup).ret = some DEFAULT_CONFIG ∧
    (load_config wCorruptNoBackup).raised = none :=
  load_falls_back_to_default wCorruptNoBackup 0 rfl (.inl rfl)

/-- C9: `save_config` mutates its in-memory argument: the caller's
document comes back with `last_saved` overwritten by the current
timestamp under every fault vector, and in particular when the
write/fsync/rename step fails, so that the caller's document then
diverges from the unchanged durable primary file. -/
theorem save_mutates_caller_document :
    (∀ (es : List (String × Json)) (now : String) (fl : Faults) (w : World),
      (save_config (.obj es) now fl w).doc
          = .obj (setEntry es "last_saved" (.str now))) ∧
    (∀ (es : List (String × Json)) (now : String) (fl : Faults) (w : World),
      fl.writeFail = true ∨ fl.fsyncFail = true ∨ fl.renameFail = true →
      (save_config (.obj es) now fl w).doc
          = .obj (setEntry es "last_saved" (.str now)) ∧
      (save_config (.obj es) now fl w).world.fs.primary = w.fs.primary) :=
  ⟨fun es now fl w => save_doc_stamped es now fl w,
   fun es now fl w hf =>
     ⟨save_doc_stamped es now fl w,
      save_primary_unchanged_of_fault (.obj es) now fl w hf⟩⟩

/-- C9 witness: a failed write still leaves the caller's document stamped
while the primary file keeps its old bytes. -/
theorem save_mutates_caller_document_witness :
    (save_config (.obj []) "t" writeFault wSerPrimary).doc
        = .obj (setEntry [] "last_saved" (.str "t")) ∧
    (save_config (.obj []) "t" writeFault wSerPrimary).world.fs.primary
        = wSerPrimary.fs.primary :=
  save_mutates_caller_document.2 [] "t" writeFault wSerPrimary (.inl rfl)

/-- C3 counterexample: a primary file that exists but cannot be opened
(`open` raises `OSError`) makes `load_config` raise to its caller — the
`except` clause catches only `json.JSONDecodeError` and `EOFError`. -/
theorem load_raises_on_unreadable_primary :
    (load_config wUnreadable).raised = some PyErr.osError ∧
    (load_config wUnreadable).ret = none :=
  ⟨rfl, rfl⟩

/-- C3 amended: whenever the primary file is absent or openable (its bytes
may be valid, malformed, truncated or empty) — and whatever the state of
the backup file, including unreadable — `load_config` returns a document
and raises nothing; every parse failure is swallowed into the
backup-then-default fallback.  Only an unopenable primary escapes. -/
theorem load_total_unless_primary_unopenable (w : World)
    (h : ∀ n, w.fs.primary ≠ FileState.unreadable n) :
    (load_config w).raised = none ∧ ∃ d, (load_config w).ret = some d := by
  cases hp : w.fs.primary with
  | unreadable n => exact absurd hp (h n)
  | absent => simp [load_config, hp, FileState.existsOnDisk]
  | file c =>
    cases c with
    | ser d => simp [load_config, hp, FileState.existsOnDisk, FileState.read, Content.parse]
    | ext d n => simp [load_config, hp, FileState.existsOnDisk, FileState.read, Content.parse]
    | garbage g =>
      cases hb : w.fs.backup with
      | absent => simp [load_config, hp, hb, FileState.existsOnDisk, FileState.read, Content.parse]
      | unreadable n => simp [load_config, hp, hb, FileState.existsOnDisk, FileState.read, Content.parse]
      | file c2 =>
        cases c2 <;>
          simp [load_config, hp, hb, FileState.existsOnDisk, FileState.read, Content.parse]

/-- C3 amended witness: empty filesystem. -/
theorem load_total_unless_primary_unopenable_witness :
    (load_config wEmpty).raised = none ∧ ∃ d, (load_config wEmpty).ret = some d :=
  load_total_unless_primary_unopenable wEmpty
    (fun _n hn => FileState.noConfusion hn)

/-- C6 counterexample: the backup step is not byte-verbatim.  With a
primary holding valid JSON in non-canonical formatting (`ext`), the backup
receives the canonical re-serialization (`ser`), which is a different byte
string than the primary's on-disk contents. -/
theorem backup_not_verbatim :
    (save_config (.obj []) "t" noFaults wExtPrimary).world.fs.backup
        = .file (.ser (.obj [])) ∧
    wExtPrimary.fs.primary = .file (.ext (.obj []) 0) ∧
    Content.ser (.obj []) ≠ Content.ext (.obj []) 0 :=
  ⟨rfl, rfl, fun h => Content.noConfusion h⟩

/-- C6 amended: if the primary exists and its bytes parse, the backup step
writes the canonical re-serialization (`json.dump` with indent 4) of the
primary's parsed contents to the backup path — byte-identical to the
primary only when the primary is already in canonical form; and failures
of the backup step never block the main save: primary, cache, returned
document, and raised status are unchanged if the backup-step faults are
cleared. -/
theorem backup_reserializes_and_never_blocks :
    (∀ (es : List (String × Json)) (now : String) (fl : Faults) (w : World)
        (c : Content) (d : Json),
      w.fs.primary = .file c → Content.parse c = some d →
      fl.backupReadFail = false → fl.backupWriteFail = false →
      (save_config (.obj es) now fl w).world.fs.backup = .file (.ser d)) ∧
    (∀ (doc : Json) (now : String) (fl : Faults) (w : World),
      (save_config doc now fl w).world.fs.primary
          = (save_config doc now (clearBackupFaults fl) w).world.fs.primary ∧
      (save_config doc now fl w).world.cache
          = (save_config doc now (clearBackupFaults fl) w).world.cache ∧
      (save_config doc now fl w).doc
          = (save_config doc now (clearBackupFaults fl) w).doc ∧
      (save_config doc now fl w).raised
          = (save_config doc now (clearBackupFaults fl) w).raised) := by
  constructor
  · intro es now fl w c d hp hparse hr hw
    rw [save_backup_eq_backupStep]
    exact backupStep_writes fl w.fs c d hp hparse hr hw
  · intro doc now fl w
    cases doc <;>
      cases hm : fl.mkstempFail <;>
        cases hw : fl.writeFail <;> cases hy : fl.fsyncFail <;> cases hr : fl.renameFail <;>
          simp [save_config, stampLastSaved, clearBackupFaults, hm, hw, hy, hr,
                backupStep_primary]

/-- C6 amended witness: canonical primary is backed up as itself. -/
theorem backup_reserializes_and_never_blocks_witness :
    (save_config (.obj []) "t" noFaults wSerPrimary).world.fs.backup
        = .file (.ser (.obj [])) :=
  backup_reserializes_and_never_blocks.1 [] "t" noFaults wSerPrimary
    (.ser (.obj [])) (.obj []) rfl rfl rfl rfl

/-- C7 counterexample: the backup file can change during a save that does
not succeed.  With a rename fault, the backup is overwritten (absent
before, present after) while the primary keeps its old bytes and the cache
is not updated — refuting "the backup changes exactly when the save
succeeds". -/
theorem backup_changes_despite_failed_save :
    (save_config (.obj []) "t" renameFault wSerPrimary).world.fs.backup
        = .file (.ser (.obj [])) ∧
    wSerPrimary.fs.backup = .absent ∧
    (save_config (.obj []) "t" renameFault wSerPrimary).world.fs.primary
        = wSerPrimary.fs.primary ∧
    (save_config (.obj []) "t" renameFault wSerPrimary).world.cache
        = wSerPrimary.cache :=
  ⟨rfl, rfl, rfl, rfl⟩

/-- C7 amended: the backup file is overwritten with a canonical
re-serialization of the primary's prior contents exactly when the backup
step itself completes — the document is a mapping, the primary exists, is
readable and parses, and neither reading the primary nor writing the
backup fails — regardless of whether the subsequent write/fsync/rename
succeeds (so a failed save can still have changed the backup).  The backup
is unchanged when the primary is absent, unreadable or unparsable, when
reading it fails, when the `open` of the backup for writing fails, or when
the document is not a mapping.  But a backup-write failure that strikes
during the `json.dump` — after `open(..., 'w')` truncated the file —
leaves the backup holding truncated partial (unparsable) bytes, not its
old contents: the backup can change even when neither the save nor the
backup step succeeds. -/
theorem backup_overwrite_characterization :
    (∀ (es : List (String × Json)) (now : String) (fl : Faults) (w : World)
        (c : Content) (d : Json),
      w.fs.primary = .file c → Content.parse c = some d →
      fl.backupReadFail = false → fl.backupWriteFail = false →
      (save_config (.obj es) now fl w).world.fs.backup = .file (.ser d)) ∧
    (∀ (es : List (String × Json)) (now : String) (fl : Faults) (w : World),
      (w.fs.primary = .absent ∨ (∃ n, w.fs.primary = .unreadable n) ∨
        (∃ g, w.fs.primary = .file (.garbage g)) ∨
        fl.backupReadFail = true ∨
        (fl.backupWriteFail = true ∧ fl.backupTruncates = false)) →
      (save_config (.obj es) now fl w).world.fs.backup = w.fs.backup) ∧
    (∀ (es : List (String × Json)) (now : String) (fl : Faults) (w : World)
        (c : Content) (d : Json),
      w.fs.primary = .file c → Content.parse c = some d →
      fl.backupReadFail = false → fl.backupWriteFail = true →
      fl.backupTruncates = true →
      (save_config (.obj es) now fl w).world.fs.backup = .file (.garbage 0)) ∧
    (∀ (now : String) (fl : Faults) (w : World) (doc : Json),
      (∀ es : List (String × Json), doc ≠ .obj es) →
      (save_config doc now fl w).world.fs.backup = w.fs.backup) := by
  refine ⟨?_, ?_, ?_, ?_⟩
  · intro es now fl w c d hp hparse hr hw
    rw [save_backup_eq_backupStep]
    exact backupStep_writes fl w.fs c d hp hparse hr hw
  · intro es now fl w hcase
    rw [save_backup_eq_backupStep]
    rcases hcase with hp | ⟨n, hp⟩ | ⟨g, hp⟩ | hbf | ⟨hbf, hbt⟩
    · simp [backupStep, hp, FileState.existsOnDisk]
    · cases hr : fl.backupReadFail <;>
        simp [backupStep, hp, hr, FileState.existsOnDisk, FileState.read]
    · cases hr : fl.backupReadFail <;>
        simp [backupStep, hp, hr, FileState.existsOnDisk, FileState.read, Content.parse]
    · cases hp : w.fs.primary <;>
        simp [backupStep, hp, hbf, FileState.existsOnDisk, FileState.read]
    · cases hp : w.fs.primary with
      | absent => simp [backupStep, hp, FileState.existsOnDisk]
      | unreadable n =>
        cases hr : fl.backupReadFail <;>
          simp [backupStep, hp, hr, FileState.existsOnDisk, FileState.read]
      | file c =>
        cases hr : fl.backupReadFail <;> cases c <;>
          simp [backupStep, hp, hr, hbf, hbt, FileState.existsOnDisk,
                FileState.read, Content.parse]
  · intro es now fl w c d hp hparse hr hbf hbt
    rw [save_backup_eq_backupStep]
    cases c with
    | garbage g2 => simp [Content.parse] at hparse
    | ser e =>
      simp [backupStep, hp, hr, hbf, hbt, FileState.existsOnDisk,
            FileState.read, Content.parse]
    | ext e n =>
      simp [backupStep, hp, hr, hbf, hbt, FileState.existsOnDisk,
            FileState.read, Content.parse]
  · intro now fl w doc hdoc
    cases doc with
    | obj es => exact absurd rfl (hdoc es)
    | null => simp [save_config, stampLastSaved]
    | bool b => simp [save_config, stampLastSaved]
    | num n => simp [save_config, stampLastSaved]
    | str s => simp [save_config, stampLastSaved]
    | arr xs => simp [save_config, stampLastSaved]

/-- C7 amended witness: a rename fault still overwrites the backup with the
re-serialized prior primary. -/
theorem backup_overwrite_characterization_witness :
    (save_config (.obj []) "t" renameFault wSerPrimary).world.fs.backup
        = .file (.ser (.obj [])) :=
  backup_overwrite_characterization.1 [] "t" renameFault wSerPrimary
    (.ser (.obj [])) (.obj []) rfl rfl rfl rfl

theorem setPfx_unfold (g : Int) (p now : String) (w w1 : World)
    (es gp es1 : List (String × Json))
    (hload : load_config w = ⟨w1, some (.obj es), none⟩)
    (hes1 : (if hasKey es "guild_prefixes" then es
             else setEntry es "guild_prefixes" (.obj [])) = es1)
    (hgp : lookupEntry es1 "guild_prefixes" = some (.obj gp)) :
    setGuildPfx g p now noFaults w =
      .ok (p, (save_config (.obj (setEntry es1 "guild_prefixes"
          (.obj (setEntry gp (toString g) (.str p))))) now noFaults w1).world) := by
  simp only [setGuildPfx, hload, hes1, hgp]

theorem getPfx_after_save (g : Int) (p now : String) (w1 : World)
    (es2 gp2 : List (String × Json))
    (hlook : lookupEntry es2 "guild_prefixes" = some (.obj gp2))
    (hg : lookupEntry gp2 (toString g) = some (.str p)) :
    ∃ w3 : World, getGuildPfx g (save_config (.obj es2) now noFaults w1).world
      = .ok (.str p, w3) := by
  have hlu : lookupEntry (setEntry es2 "last_saved" (.str now)) "guild_prefixes"
      = some (.obj gp2) := by
    rw [lookup_setEntry_ne es2 "last_saved" "guild_prefixes" (.str now) (by decide)]
    exact hlook
  refine ⟨⟨(save_config (.obj es2) now noFaults w1).world.fs,
           some (.obj (setEntry es2 "last_saved" (.str now)))⟩, ?_⟩
  simp [getGuildPfx, save_config, stampLastSaved, noFaults, load_config,
        FileState.existsOnDisk, FileState.read, Content.parse, hlu, hg]

theorem persisted_after_save (g : Int) (p now : String) (w1 : World)
    (es2 gp2 : List (String × Json))
    (hlook : lookupEntry es2 "guild_prefixes" = some (.obj gp2))
    (hg : lookupEntry gp2 (toString g) = some (.str p)) :
    ∃ es3 gp3,
      (save_config (.obj es2) now noFaults w1).world.fs.primary
        = .file (.ser (.obj es3)) ∧
      lookupEntry es3 "guild_prefixes" = some (.obj gp3) ∧
      lookupEntry gp3 (toString g) = some (.str p) := by
  refine ⟨setEntry es2 "last_saved" (.str now), gp2, ?_, ?_, hg⟩
  · simp [save_config, stampLastSaved, noFaults]
  · rw [lookup_setEntry_ne es2 "last_saved" "guild_prefixes" (.str now) (by decide)]
    exact hlook

/-- C8: on a store whose loaded document is a mapping (with a well-formed
`guild_prefixes` sub-mapping if present), setting a guild's prefix and then
getting it returns that prefix, and the persisted document's
`guild_prefixes` entry under `str(guild_id)` equals it; getting on a
document with no entry for the guild returns `"!"`. -/
theorem guild_pfx_set_then_get :
    (∀ (g : Int) (p now : String) (w w1 : World) (es : List (String × Json)),
      load_config w = ⟨w1, some (.obj es), none⟩ →
      (lookupEntry es "guild_prefixes" = none ∨
        ∃ gp, lookupEntry es "guild_prefixes" = some (.obj gp)) →
      ∃ w2 : World,
        setGuildPfx g p now noFaults w = .ok (p, w2) ∧
        (∃ w3 : World, getGuildPfx g w2 = .ok (.str p, w3)) ∧
        (∃ es2 gp2, w2.fs.primary = .file (.ser (.obj es2)) ∧
          lookupEntry es2 "guild_prefixes" = some (.obj gp2) ∧
          lookupEntry gp2 (toString g) = some (.str p))) ∧
    (∀ (g : Int) (w w1 : World) (es : List (String × Json)),
      load_config w = ⟨w1, some (.obj es), none⟩ →
      (lookupEntry es "guild_prefixes" = none ∨
        ∃ gp, lookupEntry es "guild_prefixes" = some (.obj gp) ∧
          lookupEntry gp (toString g) = none) →
      ∃ w3 : World, getGuildPfx g w = .ok (.str "!", w3)) := by
  constructor
  · intro g p now w w1 es hload hgp
    rcases hgp with hnone | ⟨gp, hgp⟩
    · have h1 : hasKey es "guild_prefixes" = false := by simp [hasKey, hnone]
      have hstep := setPfx_unfold g p now w w1 es []
        (setEntry es "guild_prefixes" (.obj [])) hload
        (by simp [h1]) (lookup_setEntry_self _ _ _)
      refine ⟨_, hstep, ?_, ?_⟩
      · exact getPfx_after_save g p now w1 _ _
          (lookup_setEntry_self _ _ _) (lookup_setEntry_self _ _ _)
      · exact persisted_after_save g p now w1 _ _
          (lookup_setEntry_self _ _ _) (lookup_setEntry_self _ _ _)
    · have h1 : hasKey es "guild_prefixes" = true := by simp [hasKey, hgp]
      have hstep := setPfx_unfold g p now w w1 es gp es hload (by simp [h1]) hgp
      refine ⟨_, hstep, ?_, ?_⟩
      · exact getPfx_after_save g p now w1 _ _
          (lookup_setEntry_self _ _ _) (lookup_setEntry_self _ _ _)
      · exact persisted_after_save g p now w1 _ _
          (lookup_setEntry_self _ _ _) (lookup_setEntry_self _ _ _)
  · intro g w w1 es hload hgp
    rcases hgp with hnone | ⟨gp, hgp, hmiss⟩
    · exact ⟨w1, by simp [getGuildPfx, hload, hnone]⟩
    · exact ⟨w1, by simp [getGuildPfx, hload, hgp, hmiss]⟩

/-- C8 witness: on an empty store (defaults), set prefix "?" for guild
12345, then read it back. -/
theorem guild_pfx_set_then_get_witness :
    ∃ w2 : World,
      setGuildPfx 12345 "?" "t" noFaults wEmpty = .ok ("?", w2) ∧
      (∃ w3 : World, getGuildPfx 12345 w2 = .ok (.str "?", w3)) ∧
      (∃ es2 gp2, w2.fs.primary = .file (.ser (.obj es2)) ∧
        lookupEntry es2 "guild_prefixes" = some (.obj gp2) ∧
        lookupEntry gp2 (toString (12345 : Int)) = some (.str "?")) :=
  guild_pfx_set_then_get.1 12345 "?" "t" wEmpty wEmpty DEFAULT_ENTRIES rfl
    (Or.inr ⟨[], rfl⟩)

theorem save_cache_unchanged_of_fault (doc : Json) (now : String) (fl : Faults)
    (w : World)
    (hf : fl.writeFail = true ∨ fl.fsyncFail = true ∨ fl.renameFail = true) :
    (save_config doc now fl w).world.cache = w.cache := by
  cases doc <;>
    cases hm : fl.mkstempFail <;>
      rcases hf with hf | hf | hf <;>
        simp [save_config, stampLastSaved, hm, hf]

/-- C10: the process-wide cache holds only last-known-good documents.  It
changes only when `load_config` successfully parses the primary or backup
bytes (and is then set to the parsed value, which is also returned), or
when `save_config` reaches a successful atomic rename (and is then set to
the stamped document that now sits in the primary file).  A load that
falls back to the default document, and a save whose write step fails,
leave the cache unchanged. -/
theorem cache_last_known_good :
    (∀ w : World, (load_config w).world.cache ≠ w.cache →
      ∃ (c : Content) (d : Json),
        (w.fs.primary = .file c ∨ w.fs.backup = .file c) ∧
        Content.parse c = some d ∧
        (load_config w).world.cache = some d ∧ (load_config w).ret = some d) ∧
    (∀ (doc : Json) (now : String) (fl : Faults) (w : World),
      (save_config doc now fl w).world.cache ≠ w.cache →
      fl.mkstempFail = false ∧ fl.writeFail = false ∧ fl.fsyncFail = false ∧
        fl.renameFail = false ∧
      ∃ es : List (String × Json), doc = .obj es ∧
        (save_config doc now fl w).world.cache
            = some (.obj (setEntry es "last_saved" (.str now))) ∧
        (save_config doc now fl w).world.fs.primary
            = .file (.ser (.obj (setEntry es "last_saved" (.str now))))) ∧
    (∀ w : World, w.fs.primary = .absent → (load_config w).world.cache = w.cache) ∧
    (∀ (w : World) (g : Nat), w.fs.primary = .file (.garbage g) →
      (w.fs.backup = .absent ∨ (∃ n, w.fs.backup = .unreadable n) ∨
        ∃ g2, w.fs.backup = .file (.garbage g2)) →
      (load_config w).world.cache = w.cache) ∧
    (∀ (doc : Json) (now : String) (fl : Faults) (w : World),
      fl.writeFail = true ∨ fl.fsyncFail = true ∨ fl.renameFail = true →
      (save_config doc now fl w).world.cache = w.cache) := by
  refine ⟨?_, ?_, ?_, ?_,
    fun doc now fl w hf => save_cache_unchanged_of_fault doc now fl w hf⟩
  · intro w hne
    cases hp : w.fs.primary with
    | absent =>
      exact absurd (by simp [load_config, hp, FileState.existsOnDisk]) hne
    | unreadable n =>
      exact absurd
        (by simp [load_config, hp, FileState.existsOnDisk, FileState.read]) hne
    | file c =>
      cases c with
      | ser d =>
        exact ⟨.ser d, d, Or.inl rfl, rfl,
          by simp [load_config, hp, FileState.existsOnDisk, FileState.read, Content.parse],
          by simp [load_config, hp, FileState.existsOnDisk, FileState.read, Content.parse]⟩
      | ext d n =>
        exact ⟨.ext d n, d, Or.inl rfl, rfl,
          by simp [load_config, hp, FileState.existsOnDisk, FileState.read, Content.parse],
          by simp [load_config, hp, FileState.existsOnDisk, FileState.read, Content.parse]⟩
      | garbage g =>
        cases hb : w.fs.backup with
        | absent =>
          exact absurd (by simp [load_config, hp, hb, FileState.existsOnDisk,
            FileState.read, Content.parse]) hne
        | unreadable n =>
          exact absurd (by simp [load_config, hp, hb, FileState.existsOnDisk,
            FileState.read, Content.parse]) hne
        | file c2 =>
          cases c2 with
          | ser d =>
            exact ⟨.ser d, d, Or.inr rfl, rfl,
              by simp [load_config, hp, hb, FileState.existsOnDisk, FileState.read, Content.parse],
              by simp [load_config, hp, hb, FileState.existsOnDisk, FileState.read, Content.parse]⟩
          | ext d n =>
            exact ⟨.ext d n, d, Or.inr rfl, rfl,
              by simp [load_config, hp, hb, FileState.existsOnDisk, FileState.read, Content.parse],
              by simp [load_config, hp, hb, FileState.existsOnDisk, FileState.read, Content.parse]⟩
          | garbage g2 =>
            exact absurd (by simp [load_config, hp, hb, FileState.existsOnDisk,
              FileState.read, Content.parse]) hne
  · intro doc now fl w hne
    cases doc with
    | obj es =>
      cases hm : fl.mkstempFail with
      | true =>
        exact absurd (by simp [save_config, stampLastSaved, hm]) hne
      | false =>
        cases hw : fl.writeFail with
        | true => exact absurd (save_cache_unchanged_of_fault _ now fl w (.inl hw)) hne
        | false =>
          cases hy : fl.fsyncFail with
          | true =>
            exact absurd (save_cache_unchanged_of_fault _ now fl w (.inr (.inl hy))) hne
          | false =>
            cases hr : fl.renameFail with
            | true =>
              exact absurd
                (save_cache_unchanged_of_fault _ now fl w (.inr (.inr hr))) hne
            | false =>
              exact ⟨rfl, rfl, rfl, rfl, es, rfl,
                by simp [save_config, stampLastSaved, hm, hw, hy, hr],
                by simp [save_config, stampLastSaved, hm, hw, hy, hr]⟩
    | null => exact absurd (by simp [save_config, stampLastSaved]) hne
    | bool b => exact absurd (by simp [save_config, stampLastSaved]) hne
    | num n => exact absurd (by simp [save_config, stampLastSaved]) hne
    | str s => exact absurd (by simp [save_config, stampLastSaved]) hne
    | arr xs => exact absurd (by simp [save_config, stampLastSaved]) hne
  · intro w hp
    simp [load_config, hp, FileState.existsOnDisk]
  · intro w g hp hb
    rcases hb with hb | ⟨n, hb⟩ | ⟨g2, hb⟩ <;>
      simp [load_config, hp, hb, FileState.existsOnDisk, FileState.read,
            Content.parse]

/-- C10 witness: a fault-free save on the empty world updates the cache to
the stamped document, which is exactly what the rename installed. -/
theorem cache_last_known_good_witness :
    noFaults.mkstempFail = false ∧ noFaults.writeFail = false ∧
    noFaults.fsyncFail = false ∧ noFaults.renameFail = false ∧
    ∃ es : List (String × Json), (Json.obj []) = .obj es ∧
      (save_config (.obj []) "t" noFaults wEmpty).world.cache
          = some (.obj (setEntry es "last_saved" (.str "t"))) ∧
      (save_config (.obj []) "t" noFaults wEmpty).world.fs.primary
          = .file (.ser (.obj (setEntry es "last_saved" (.str "t")))) :=
  cache_last_known_good.2.1 (.obj []) "t" noFaults wEmpty
    (fun h => Option.noConfusion h)

end NCRP
